import Mathlib

/-!
Shallow embedding of the numerical core of `src/app.py`:
the Kepler-element → Cartesian-position propagator (`kepler_to_cartesian`),
the Newton–Raphson solver of Kepler's equation (`solve_keplers_equation`)
and the impact-effects estimator (`compute_impact_effects`).

Python floats are modelled as real numbers.  Points where the Python code
can raise a runtime exception (division by zero, `math.sqrt` of a negative
number) are modelled with `Except String`; total real division models the
division inside the Newton update, which is justified below by the proof
that its denominator is bounded away from zero on the solver's domain.
-/

noncomputable section

/-- Python's `math.radians`: degrees to radians. -/
def radians (x : ℝ) : ℝ := x * (Real.pi / 180)

/-- Truncation toward zero, as used by C/Python `fmod`. -/
def rtrunc (x : ℝ) : ℤ := if 0 ≤ x then ⌊x⌋ else ⌈x⌉

/-- Python's `math.fmod` for a positive modulus: the remainder
`x - y * trunc(x / y)`, which carries the sign of the dividend `x`. -/
def fmod (x y : ℝ) : ℝ := x - y * (rtrunc (x / y) : ℝ)

/-- `f(E) = E - e*sin(E) - M`, the residual of Kepler's equation
(variable `f` in `solve_keplers_equation`). -/
def keplerF (e M E : ℝ) : ℝ := E - e * Real.sin E - M

/-- `f'(E) = 1 - e*cos(E)` (variable `f_prime` in `solve_keplers_equation`). -/
def keplerFPrime (e E : ℝ) : ℝ := 1 - e * Real.cos E

/-- One Newton–Raphson update `E + delta` with `delta = -f(E)/f'(E)`. -/
def newtonUpdate (e M E : ℝ) : ℝ := E + -keplerF e M E / keplerFPrime e E

/-- The `k`-th Newton iterate starting from the initial guess `E = M`. -/
def newtonIterates (e M : ℝ) (k : ℕ) : ℝ := (newtonUpdate e M)^[k] M

/-- The `for _ in range(n)` loop of `solve_keplers_equation`: update `E`,
then break as soon as `|delta| < tol`. -/
def solveLoop (e M tol : ℝ) : ℕ → ℝ → ℝ
  | 0, E => E
  | n + 1, E =>
    let delta := -keplerF e M E / keplerFPrime e E
    let E' := E + delta
    if |delta| < tol then E' else solveLoop e M tol n E'

/-- `_solve_keplers_equation` from `src/app.py`: Newton–Raphson with initial
guess `E = M`, at most 50 iterations, early exit when `|delta| < tol`. -/
def solve_keplers_equation (e M : ℝ) (tol : ℝ := 1e-10) : ℝ :=
  solveLoop e M tol 50 M

/-- A heliocentric Cartesian position in kilometres. -/
structure Position where
  x : ℝ
  y : ℝ
  z : ℝ

/-- Python's `math.atan2`. -/
def atan2 (y x : ℝ) : ℝ :=
  if 0 < x then Real.arctan (y / x)
  else if x < 0 then
    (if 0 ≤ y then Real.arctan (y / x) + Real.pi else Real.arctan (y / x) - Real.pi)
  else if 0 < y then Real.pi / 2
  else if y < 0 then -(Real.pi / 2)
  else 0

/-- The mean anomaly actually used at a sample of `kepler_to_cartesian`:
`M_t = fmod(M0 + n*t, 2*pi)`. -/
def sampleMeanAnomaly (M0 n t : ℝ) : ℝ := fmod (M0 + n * t) (2 * Real.pi)

/-- The eccentric anomaly computed at a sample of `kepler_to_cartesian`. -/
def sampleEccentricAnomaly (e M0 n t : ℝ) : ℝ :=
  solve_keplers_equation e (sampleMeanAnomaly M0 n t)

/-- The body of the sampling loop of `kepler_to_cartesian` at elapsed time `t`
(total part: Kepler solve, true anomaly, radius, and the three rotations). -/
def samplePosition (a_km e i omega w M0 n t : ℝ) : Position :=
  let E := sampleEccentricAnomaly e M0 n t
  let nu := 2 * atan2 (Real.sqrt (1 + e) * Real.sin (E / 2))
      (Real.sqrt (1 - e) * Real.cos (E / 2))
  let r := a_km * (1 - e * Real.cos E)
  let x_op := r * Real.cos nu
  let y_op := r * Real.sin nu
  let z_op := (0 : ℝ)
  let x1 := Real.cos w * x_op - Real.sin w * y_op
  let y1 := Real.sin w * x_op + Real.cos w * y_op
  let z1 := z_op
  let x2 := x1
  let y2 := Real.cos i * y1 - Real.sin i * z1
  let z2 := Real.sin i * y1 + Real.cos i * z1
  let x := Real.cos omega * x2 - Real.sin omega * y2
  let y := Real.sin omega * x2 + Real.cos omega * y2
  let z := z2
  ⟨x, y, z⟩

/-- One iteration of the sampling loop, with the runtime failure points the
Python code can hit inside the loop: `j / (steps - 1)` raises
`ZeroDivisionError` when `steps = 1`, and `math.sqrt(1 + e)` /
`math.sqrt(1 - e)` raise `ValueError` (`math domain error`) for `e`
outside `[-1, 1]`. -/
def keplerSample (a_km e i omega w M0 n dt_total : ℝ) (steps j : ℕ) :
    Except String Position :=
  if (steps : ℝ) - 1 = 0 then Except.error "ZeroDivisionError" else
  let t := (j : ℝ) / ((steps : ℝ) - 1) * dt_total
  if 1 + e < 0 then Except.error "math domain error" else
  if 1 - e < 0 then Except.error "math domain error" else
  Except.ok (samplePosition a_km e i omega w M0 n t)

/-- `kepler_to_cartesian` from `src/app.py`: convert Keplerian elements to a
list of Cartesian positions sampled at `steps` equally spaced times over
`timespan_days` days.  The two guards before the loop model the Python
failure points of `n = math.sqrt(mu / a_km**3)`: `ZeroDivisionError` when
`a_km**3 = 0` and `math domain error` when `mu / a_km**3 < 0`. -/
def kepler_to_cartesian (a e i_deg omega_deg w_deg M_deg : ℝ)
    (mu : ℝ := 1.32712440018e11) (steps : ℕ := 500)
    (timespan_days : ℝ := 365.25) : Except String (List Position) :=
  let i := radians i_deg
  let omega := radians omega_deg
  let w := radians w_deg
  let M0 := radians M_deg
  let a_km := a * 1.496e8
  if a_km ^ 3 = 0 then Except.error "ZeroDivisionError" else
  if mu / a_km ^ 3 < 0 then Except.error "math domain error" else
  let n := Real.sqrt (mu / a_km ^ 3)
  let dt_total := timespan_days * 24 * 3600
  (List.range steps).mapM (keplerSample a_km e i omega w M0 n dt_total steps)

/-- The result record of `compute_impact_effects` (the returned Python dict). -/
structure ImpactEffects where
  kinetic_energy_joules : ℝ
  energy_megatons_tnt : ℝ
  crater_diameter_km : ℝ
  seismic_magnitude : ℝ

/-- `compute_impact_effects` from `src/app.py`. -/
def compute_impact_effects (diameter_m density velocity_m_per_s impact_angle_deg : ℝ)
    (crater_coeff : ℝ := 1.0e-2) : ImpactEffects :=
  let radius := diameter_m / 2.0
  let volume := (4.0 / 3.0) * Real.pi * radius ^ 3
  let mass := volume * density
  let angle_rad := radians impact_angle_deg
  let v_vertical := velocity_m_per_s * Real.sin angle_rad
  let kinetic_energy := 0.5 * mass * v_vertical ^ 2
  let energy_mt := kinetic_energy / 4.184e9 / 1e6
  let crater_diameter_km := crater_coeff * kinetic_energy ^ (0.25 : ℝ) / 1000.0
  let magnitude :=
    if kinetic_energy > 0 then (Real.logb 10 kinetic_energy - 4.8) / 1.5 else 0
  ⟨kinetic_energy, energy_mt, crater_diameter_km, magnitude⟩

/-- The kinetic-energy formula exactly as the specification states it:
`0.5 · ((4/3)·π·(diameterMeters/2)³·densityKgM3) ·
(velocityMetersPerSecond·sin(impactAngleDeg in radians))²`. -/
def specKineticEnergyJoules (d rho v theta : ℝ) : ℝ :=
  0.5 * ((4 / 3) * Real.pi * (d / 2) ^ 3 * rho) * (v * Real.sin (radians theta)) ^ 2

/-- The TNT-equivalent formula exactly as the specification states it. -/
def specEnergyMegatonsTnt (d rho v theta : ℝ) : ℝ :=
  specKineticEnergyJoules d rho v theta / 4.184e9 / 1e6

/-- The crater-diameter formula exactly as the specification states it. -/
def specCraterDiameterKm (d rho v theta c : ℝ) : ℝ :=
  c * specKineticEnergyJoules d rho v theta ^ (0.25 : ℝ) / 1000

/-- The seismic-magnitude formula exactly as the specification states it. -/
def specSeismicMagnitude (d rho v theta : ℝ) : ℝ :=
  if 0 < specKineticEnergyJoules d rho v theta then
    (Real.logb 10 (specKineticEnergyJoules d rho v theta) - 4.8) / 1.5
  else 0

end

/-- C5: for every impactor, `compute_impact_effects` returns exactly the four
metrics given by the specification's formulas. -/
theorem compute_impact_effects_matches_spec (d rho v theta c : ℝ) :
    compute_impact_effects d rho v theta c =
      ⟨specKineticEnergyJoules d rho v theta, specEnergyMegatonsTnt d rho v theta,
       specCraterDiameterKm d rho v theta c, specSeismicMagnitude d rho v theta⟩ := by
  simp only [compute_impact_effects, specEnergyMegatonsTnt, specCraterDiameterKm,
    specSeismicMagnitude, specKineticEnergyJoules]
  norm_num

theorem solveLoop_zero (e M tol E : ℝ) : solveLoop e M tol 0 E = E := rfl

theorem solveLoop_succ (e M tol : ℝ) (n : ℕ) (E : ℝ) :
    solveLoop e M tol (n + 1) E =
      (let delta := -keplerF e M E / keplerFPrime e E
       let E' := E + delta
       if |delta| < tol then E' else solveLoop e M tol n E') := rfl

/-- C8: for eccentricity `e = 0` the Kepler solver returns `E = M` exactly
(the first Newton update is zero, so the loop exits at once), and hence the
eccentric anomaly at every trajectory sample of a circular orbit equals the
sampled mean anomaly. -/
theorem circular_orbit_solver_returns_M :
    (∀ M : ℝ, solve_keplers_equation 0 M = M) ∧
    (∀ M0 n t : ℝ, sampleEccentricAnomaly 0 M0 n t = sampleMeanAnomaly M0 n t) := by
  have h : ∀ M : ℝ, solve_keplers_equation 0 M = M := by
    intro M
    unfold solve_keplers_equation
    rw [show (50 : ℕ) = 49 + 1 from rfl, solveLoop_succ]
    norm_num [keplerF, keplerFPrime]
  exact ⟨h, fun M0 n t => h (sampleMeanAnomaly M0 n t)⟩

/-- C9: for `0 ≤ e < 1` the Newton denominator `f'(E) = 1 - e·cos E` is at
least `1 - e`, hence strictly positive, at every iterate of the solver, so
the update's division never divides by zero. -/
theorem newton_denominator_pos (e M : ℝ) (h0 : 0 ≤ e) (h1 : e < 1) (k : ℕ) :
    1 - e ≤ keplerFPrime e (newtonIterates e M k) ∧
    0 < keplerFPrime e (newtonIterates e M k) := by
  have h : ∀ E : ℝ, 1 - e ≤ keplerFPrime e E := by
    intro E
    have hc : e * Real.cos E ≤ e * 1 :=
      mul_le_mul_of_nonneg_left (Real.cos_le_one E) h0
    unfold keplerFPrime
    linarith
  exact ⟨h _, lt_of_lt_of_le (by linarith) (h _)⟩

/-- Witness for C9 at `e = 0`, `M = 0`, third iterate. -/
theorem newton_denominator_pos_witness :
    1 - 0 ≤ keplerFPrime 0 (newtonIterates 0 0 3) ∧
    0 < keplerFPrime 0 (newtonIterates 0 0 3) :=
  newton_denominator_pos 0 0 (by norm_num) (by norm_num) 3


/-- C2 counterexample: at the out-of-domain diameter `0` (with density 3000,
velocity 20000 m/s, vertical impact, default coefficient) the function does
not fail: it returns the all-zero `ImpactEffects` record. -/
theorem impact_zero_diameter_counterexample :
    compute_impact_effects 0 3000 20000 90 1.0e-2 = ⟨0, 0, 0, 0⟩ ∧ (0 : ℝ) ≤ 0 := by
  constructor
  · unfold compute_impact_effects
    norm_num [Real.zero_rpow]
  · exact le_refl 0

/-- C2 (amended): `compute_impact_effects` performs no input validation.
At the out-of-domain diameter `0` it returns an `ImpactEffects` record (with
all four metrics `0`) for every density, velocity, angle and coefficient,
instead of failing with `InvalidInput`. -/
theorem impact_zero_diameter_returns_record (rho v theta c : ℝ) :
    compute_impact_effects 0 rho v theta c = ⟨0, 0, 0, 0⟩ := by
  unfold compute_impact_effects
  norm_num [Real.zero_rpow]

/-- C10: with non-negative diameter and density (and arbitrary real velocity
and impact angle) the kinetic energy, TNT equivalent and crater diameter
returned by `compute_impact_effects` (default coefficient) are non-negative;
the crater diameter stays real because the energy base of `^ 0.25` is
non-negative. -/
theorem impact_effects_nonneg (d rho v theta : ℝ) (hd : 0 ≤ d) (hrho : 0 ≤ rho) :
    0 ≤ (compute_impact_effects d rho v theta).kinetic_energy_joules ∧
    0 ≤ (compute_impact_effects d rho v theta).energy_megatons_tnt ∧
    0 ≤ (compute_impact_effects d rho v theta).crater_diameter_km := by
  have hmass : 0 ≤ (4.0 / 3.0) * Real.pi * (d / 2.0) ^ 3 * rho := by
    have h1 : 0 ≤ (d / 2.0 : ℝ) ^ 3 := pow_nonneg (by linarith) 3
    have h2 : 0 ≤ (4.0 / 3.0 : ℝ) * Real.pi := by positivity
    exact mul_nonneg (mul_nonneg h2 h1) hrho
  have hke : 0 ≤ 0.5 * ((4.0 / 3.0) * Real.pi * (d / 2.0) ^ 3 * rho) *
      (v * Real.sin (radians theta)) ^ 2 :=
    mul_nonneg (mul_nonneg (by norm_num) hmass) (sq_nonneg _)
  refine ⟨?_, ?_, ?_⟩ <;> simp only [compute_impact_effects]
  · exact hke
  · exact div_nonneg (div_nonneg hke (by norm_num)) (by norm_num)
  · exact div_nonneg (mul_nonneg (by norm_num) (Real.rpow_nonneg hke _)) (by norm_num)

/-- Witness for C10 at diameter 2 m, density 3 kg/m³, velocity 5 m/s,
angle 7 degrees. -/
theorem impact_effects_nonneg_witness :
    0 ≤ (compute_impact_effects 2 3 5 7).kinetic_energy_joules ∧
    0 ≤ (compute_impact_effects 2 3 5 7).energy_megatons_tnt ∧
    0 ≤ (compute_impact_effects 2 3 5 7).crater_diameter_km :=
  impact_effects_nonneg 2 3 5 7 (by norm_num) (by norm_num)

/-- C3: the mean anomaly the propagator hands to the Kepler solver is
computed with the truncating `math.fmod`, so with mean anomaly −180° at
epoch (sample `t = 0`, `a = 1` AU) the solver receives `−π`, a negative
value outside `[0, 2π)`. -/
theorem sample_mean_anomaly_negative :
    sampleMeanAnomaly (radians (-180))
      (Real.sqrt (1.32712440018e11 / (1 * 1.496e8) ^ 3)) 0 = -Real.pi ∧
    -Real.pi < 0 := by
  constructor
  · unfold sampleMeanAnomaly fmod rtrunc radians
    have hdiv : (-180 : ℝ) * (Real.pi / 180) +
        Real.sqrt (1.32712440018e11 / (1 * 1.496e8) ^ 3) * 0 = -Real.pi := by
      ring
    rw [hdiv]
    have hq : -Real.pi / (2 * Real.pi) = -(1 / 2 : ℝ) := by
      rw [div_eq_iff (by positivity : (2 : ℝ) * Real.pi ≠ 0)]
      ring
    rw [hq]
    norm_num
  · simpa using Real.pi_pos

theorem solveLoop_succ_eq (e M tol : ℝ) (n : ℕ) (E : ℝ) :
    solveLoop e M tol (n + 1) E =
      if |(-keplerF e M E / keplerFPrime e E)| < tol then newtonUpdate e M E
      else solveLoop e M tol n (newtonUpdate e M E) := rfl

/-- The sampling loop of the solver performs between 1 and `n` Newton updates,
returns the iterate at which it stopped, stops exactly at the first update
whose magnitude drops below `tol`, and returns the last iterate when the
budget is exhausted. -/
theorem solveLoop_iterates (e M tol : ℝ) :
    ∀ (n : ℕ) (E : ℝ), 1 ≤ n →
    ∃ k : ℕ, 1 ≤ k ∧ k ≤ n ∧
      solveLoop e M tol n E = (newtonUpdate e M)^[k] E ∧
      (k < n → |(newtonUpdate e M)^[k] E - (newtonUpdate e M)^[k - 1] E| < tol) ∧
      (∀ j : ℕ, 1 ≤ j → j < k →
        ¬ |(newtonUpdate e M)^[j] E - (newtonUpdate e M)^[j - 1] E| < tol) := by
  intro n
  induction n with
  | zero => intro E h; omega
  | succ n ih =>
    intro E _
    rw [solveLoop_succ_eq]
    have hdelta : (newtonUpdate e M)^[1] E - (newtonUpdate e M)^[0] E =
        -keplerF e M E / keplerFPrime e E := by
      simp [newtonUpdate]
    by_cases hstop : |(-keplerF e M E / keplerFPrime e E)| < tol
    · refine ⟨1, le_refl 1, by omega, ?_, ?_, ?_⟩
      · rw [if_pos hstop, Function.iterate_one]
      · intro _
        rw [hdelta]
        exact hstop
      · intro j hj1 hj2
        omega
    · rw [if_neg hstop]
      rcases Nat.eq_zero_or_pos n with hn | hn
      · subst hn
        refine ⟨1, le_refl 1, le_refl 1, ?_, ?_, ?_⟩
        · rw [solveLoop_zero, Function.iterate_one]
        · intro h
          omega
        · intro j h1 h2
          omega
      · obtain ⟨k, hk1, hkn, heq, hstopk, hmin⟩ :=
          ih (newtonUpdate e M E) hn
        have hshift : ∀ m : ℕ,
            (newtonUpdate e M)^[m] (newtonUpdate e M E) =
            (newtonUpdate e M)^[m + 1] E := by
          intro m
          rw [Function.iterate_succ_apply]
        refine ⟨k + 1, by omega, by omega, ?_, ?_, ?_⟩
        · rw [heq, hshift]
        · intro hklt
          have h' := hstopk (by omega)
          rw [hshift k] at h'
          have hk' : k - 1 + 1 = k := by omega
          rw [hshift (k - 1), hk'] at h'
          simpa using h'
        · intro j hj1 hjk
          rcases Nat.eq_or_lt_of_le hj1 with hj | hj
          · rw [← hj]
            rw [hdelta.symm] at hstop
            simpa using hstop
          · have hjm : 1 ≤ j - 1 := by omega
            have h' := hmin (j - 1) hjm (by omega)
            rw [hshift (j - 1)] at h'
            have hj' : j - 1 + 1 = j := by omega
            rw [hj'] at h'
            have hj'' : j - 1 - 1 + 1 = j - 1 := by omega
            rw [hshift (j - 1 - 1), hj''] at h'
            exact h'

/-- C7: for `0 ≤ e < 1`, any real `M` and the default tolerance `1e-10`, the
Kepler solver terminates after between 1 and 50 Newton updates: it returns
the Newton iterate at which it stopped, it stops at the first update whose
magnitude is below the tolerance, and when no update in the 50-iteration
budget converges it returns the 50th iterate instead of failing. -/
theorem solver_terminates (e M : ℝ) (h0 : 0 ≤ e) (h1 : e < 1) :
    ∃ k : ℕ, 1 ≤ k ∧ k ≤ 50 ∧
      solve_keplers_equation e M = newtonIterates e M k ∧
      (k < 50 → |newtonIterates e M k - newtonIterates e M (k - 1)| < 1e-10) ∧
      (∀ j : ℕ, 1 ≤ j → j < k →
        ¬ |newtonIterates e M j - newtonIterates e M (j - 1)| < 1e-10) := by
  obtain ⟨k, hk1, hk50, heq, hstop, hmin⟩ :=
    solveLoop_iterates e M 1e-10 50 M (by norm_num)
  exact ⟨k, hk1, hk50, heq, hstop, hmin⟩

/-- Witness for C7 at `e = 0`, `M = 0`. -/
theorem solver_terminates_witness :
    ∃ k : ℕ, 1 ≤ k ∧ k ≤ 50 ∧
      solve_keplers_equation 0 0 = newtonIterates 0 0 k ∧
      (k < 50 → |newtonIterates 0 0 k - newtonIterates 0 0 (k - 1)| < 1e-10) ∧
      (∀ j : ℕ, 1 ≤ j → j < k →
        ¬ |newtonIterates 0 0 j - newtonIterates 0 0 (j - 1)| < 1e-10) :=
  solver_terminates 0 0 (le_refl 0) (by norm_num)

/-- C1 (amended): `kepler_to_cartesian` performs no upfront input
validation.  With the out-of-domain schedule `steps = 0` (and any elements
with `a > 0`, `mu > 0`, any eccentricity) it returns the empty position
list instead of failing with an `InvalidInput` error. -/
theorem kepler_zero_steps_returns_empty (a e i_deg omega_deg w_deg M_deg mu ts : ℝ)
    (ha : 0 < a) (hmu : 0 < mu) :
    kepler_to_cartesian a e i_deg omega_deg w_deg M_deg mu 0 ts = Except.ok [] := by
  have h1 : ¬((a * 1.496e8) ^ 3 = 0) := by positivity
  have h2 : ¬(mu / (a * 1.496e8) ^ 3 < 0) := by
    push_neg
    positivity
  simp only [kepler_to_cartesian]
  rw [if_neg h1, if_neg h2]
  rfl

/-- Witness for C1's amended claim at `a = 1` AU, `e = 0`, default `mu`. -/
theorem kepler_zero_steps_witness :
    kepler_to_cartesian 1 0 0 0 0 0 1.32712440018e11 0 365.25 = Except.ok [] :=
  kepler_zero_steps_returns_empty 1 0 0 0 0 0 1.32712440018e11 365.25
    (by norm_num) (by norm_num)

/-- C1 counterexample: a call whose schedule is out of domain (`steps = 0`,
fewer than 2 steps, and eccentricity `2` outside `[0,1)`) does not fail
with any error: it returns a trajectory (the empty ordered sequence). -/
theorem kepler_invalid_input_counterexample :
    (0 : ℕ) < 2 ∧
    kepler_to_cartesian 1 2 0 0 0 0 1.32712440018e11 0 365.25 = Except.ok [] := by
  constructor
  · norm_num
  · simp only [kepler_to_cartesian]
    rw [if_neg (by norm_num), if_neg (by norm_num)]
    rfl

theorem mapM_ok_of_forall_ok {α β : Type} (l : List α) (f : α → Except String β)
    (g : α → β) (h : ∀ x ∈ l, f x = Except.ok (g x)) :
    l.mapM f = Except.ok (l.map g) := by
  induction l with
  | nil => rfl
  | cons x xs ih =>
    rw [List.mapM_cons, h x (List.mem_cons_self x xs), List.map_cons,
      ih (fun y hy => h y (List.mem_cons_of_mem x hy))]
    rfl

/-- C4: for valid elements (`a > 0`, `0 ≤ e < 1`) and a schedule with
`steps ≥ 2` and positive timespan, `kepler_to_cartesian` (default `mu`)
returns an ordered list of exactly `steps` positions whose `j`-th element is
the sample at elapsed time `t = (j/(steps-1))·timespanDays·24·3600` seconds;
the time of index `0` is `0` and the time of index `steps - 1` is
`timespanDays` days, i.e. `timespanDays · 86400` seconds. -/
theorem kepler_trajectory_shape (a e i_deg omega_deg w_deg M_deg ts : ℝ)
    (steps : ℕ) (ha : 0 < a) (he0 : 0 ≤ e) (he1 : e < 1)
    (hsteps : 2 ≤ steps) (hts : 0 < ts) :
    ∃ l : List Position,
      kepler_to_cartesian a e i_deg omega_deg w_deg M_deg 1.32712440018e11 steps ts =
        Except.ok l ∧
      l.length = steps ∧
      (∀ j : ℕ, j < steps →
        l[j]? = some (samplePosition (a * 1.496e8) e (radians i_deg)
          (radians omega_deg) (radians w_deg) (radians M_deg)
          (Real.sqrt (1.32712440018e11 / (a * 1.496e8) ^ 3))
          ((j : ℝ) / ((steps : ℝ) - 1) * (ts * 24 * 3600)))) ∧
      (0 : ℝ) / ((steps : ℝ) - 1) * (ts * 24 * 3600) = 0 ∧
      (((steps - 1 : ℕ) : ℝ) / ((steps : ℝ) - 1) * (ts * 24 * 3600) = ts * 86400) := by
  have hsR : (2 : ℝ) ≤ (steps : ℝ) := by exact_mod_cast hsteps
  have hden : ¬((steps : ℝ) - 1 = 0) := by
    intro h
    linarith
  have h1 : ¬((a * 1.496e8) ^ 3 = 0) := by positivity
  have h2 : ¬(1.32712440018e11 / (a * 1.496e8) ^ 3 < 0) := by
    push_neg
    positivity
  refine ⟨(List.range steps).map (fun (j : ℕ) => samplePosition (a * 1.496e8) e
    (radians i_deg) (radians omega_deg) (radians w_deg) (radians M_deg)
    (Real.sqrt (1.32712440018e11 / (a * 1.496e8) ^ 3))
    ((j : ℝ) / ((steps : ℝ) - 1) * (ts * 24 * 3600))), ?_, ?_, ?_, ?_, ?_⟩
  · simp only [kepler_to_cartesian]
    rw [if_neg h1, if_neg h2]
    refine mapM_ok_of_forall_ok _ _ _ (fun j _ => ?_)
    simp only [keplerSample]
    rw [if_neg hden, if_neg (by linarith : ¬(1 + e < 0)),
      if_neg (by linarith : ¬(1 - e < 0))]
  · simp
  · intro j hj
    simp [List.getElem?_map, List.getElem?_range hj]
  · simp
  · rw [Nat.cast_sub (by omega : 1 ≤ steps), Nat.cast_one, div_self hden]
    ring_nf

/-- Witness for C4: a 2-step, 365.25-day schedule for a circular 1-AU orbit. -/
theorem kepler_trajectory_shape_witness :
    ∃ l : List Position,
      kepler_to_cartesian 1 0 0 0 0 0 1.32712440018e11 2 365.25 = Except.ok l ∧
      l.length = 2 ∧
      (∀ j : ℕ, j < 2 →
        l[j]? = some (samplePosition (1 * 1.496e8) 0 (radians 0) (radians 0)
          (radians 0) (radians 0)
          (Real.sqrt (1.32712440018e11 / (1 * 1.496e8) ^ 3))
          ((j : ℝ) / (((2 : ℕ) : ℝ) - 1) * (365.25 * 24 * 3600)))) ∧
      (0 : ℝ) / (((2 : ℕ) : ℝ) - 1) * (365.25 * 24 * 3600) = 0 ∧
      ((((2 : ℕ) - 1 : ℕ) : ℝ) / (((2 : ℕ) : ℝ) - 1) * (365.25 * 24 * 3600) =
        365.25 * 86400) :=
  kepler_trajectory_shape 1 0 0 0 0 0 365.25 2 (by norm_num) (le_refl 0)
    (by norm_num) (le_refl 2) (by norm_num)
